import Mathlib

/-!
Verification of the liftbridge-cli command-dispatch and session-management
layer (src/cli/cli.go) against its natural-language specification.

Shallow embedding conventions:
- Go errors are the inductive `GoError`.  `fmt.Errorf("prefix: %w", err)` is
  `GoError.wrapped "prefix" err` (the prefix string carries the formatted
  arguments); `fmt.Errorf("invalid ack policy: %v", s)` is
  `GoError.invalidAckPolicy s`; `lift.ErrStreamExists` is
  `GoError.errStreamExists`; any other broker or transport error is
  `GoError.broker s`.
- Every external broker call made by a handler becomes an explicit argument
  holding the result the broker returned for that call (`Option GoError` for
  calls used only for their error, `Except GoError _` otherwise).  The Lean
  function then computes exactly what the Go function does with that result.
- Machine integers are `Int` with explicit reduction modulo 2^32 where Go
  narrows `int` to `int32`.
-/

namespace LiftbridgeCli

/-- Go error values as they occur in cli.go: the distinguished
`lift.ErrStreamExists` sentinel, opaque broker or transport errors, the
`fmt.Errorf("invalid ack policy: %v", ...)` value, and `fmt.Errorf` wrappings
of a cause with a formatted prefix. -/
inductive GoError where
  | errStreamExists : GoError
  | broker : String → GoError
  | invalidAckPolicy : String → GoError
  | wrapped : String → GoError → GoError
deriving DecidableEq, Repr

/-- connectToEndpoint: given the result of `lift.Connect([]string{address})`,
returns `nil` on success and otherwise the dial error wrapped as
`"connection failed with address %v: %w"`. -/
def connectToEndpoint (address : String) (dialErr : Option GoError) : Option GoError :=
  match dialErr with
  | none => none
  | some e => some (.wrapped ("connection failed with address " ++ address) e)

/-- The `(subject, name)` pair handed to `client.CreateStream` by
ensureStreamCreated after its `len(subjectName) == 0` defaulting. -/
def ensureStreamCreatedCall (streamName subjectName : String) : String × String :=
  if subjectName.length = 0 then (streamName, streamName)
  else (subjectName, streamName)

/-- ensureStreamCreated error handling: given the error returned by the
broker's CreateStream call, the error ensureStreamCreated returns.
`lift.ErrStreamExists` is treated as success; any other error is wrapped as
`"stream creation failed for stream %v: %w"`. -/
def ensureStreamCreatedResult (createErr : Option GoError) (streamName : String) :
    Option GoError :=
  match createErr with
  | none => none
  | some e =>
    if e = GoError.errStreamExists then none
    else some (.wrapped ("stream creation failed for stream " ++ streamName) e)

/-- Modelled from the spec: the broker is an external collaborator (§6); its
state visible to this client is the set of existing stream names. -/
structure Broker where
  streams : List String
deriving DecidableEq, Repr

/-- Modelled from the spec: the broker's CreateStream operation returns the
distinguished "stream already exists" error when the name is already taken
and otherwise records the stream and succeeds (§6 boundary contract). -/
def Broker.createStream (b : Broker) (subject name : String) : Option GoError × Broker :=
  if name ∈ b.streams then (some .errStreamExists, b)
  else (none, ⟨name :: b.streams⟩)

/-- ensureStreamCreated run against the modelled broker: defaults the subject,
performs the CreateStream call, and maps its result through
`ensureStreamCreatedResult`.  Returns the error and the broker afterwards. -/
def ensureStreamCreated (b : Broker) (streamName subjectName : String) :
    Option GoError × Broker :=
  let call := ensureStreamCreatedCall streamName subjectName
  let r := b.createStream call.1 call.2
  (ensureStreamCreatedResult r.1 streamName, r.2)

/-- The `(subject, name)` pair handed to `client.CreateStream` by the create
handler after its `len(subjectName) == 0` defaulting. -/
def createCall (streamName subjectName : String) : String × String :=
  if subjectName.length = 0 then (streamName, streamName)
  else (subjectName, streamName)

/-- The create handler: connect (wrapping failures as `"creation failed"`),
default the subject, call CreateStream, and wrap ANY CreateStream error as
`"stream creation failed for stream %v: %w"` — unlike ensureStreamCreated it
does not special-case `lift.ErrStreamExists`. -/
def create (address : String) (dialErr : Option GoError) (b : Broker)
    (streamName subjectName : String) : Option GoError × Broker :=
  match connectToEndpoint address dialErr with
  | some e => (some (.wrapped "creation failed" e), b)
  | none =>
    let call := createCall streamName subjectName
    let r := b.createStream call.1 call.2
    (match r.1 with
     | none => none
     | some e => some (.wrapped ("stream creation failed for stream " ++ streamName) e),
     r.2)

/-- The ack policy values produced by the resolver (the
`lift.AckPolicyLeader/All/None()` message options). -/
inductive AckPolicy where
  | leader : AckPolicy
  | all : AckPolicy
  | none : AckPolicy
deriving DecidableEq, Repr

/-- ackPolicyStringToAckPolicy: the Go switch on the token string; exactly
`"leader"`, `"all"`, `"none"` succeed, any other token yields
`fmt.Errorf("invalid ack policy: %v", ackPolicy)`. -/
def ackPolicyStringToAckPolicy (ackPolicy : String) : Except GoError AckPolicy :=
  if ackPolicy = "leader" then .ok .leader
  else if ackPolicy = "all" then .ok .all
  else if ackPolicy = "none" then .ok .none
  else .error (.invalidAckPolicy ackPolicy)

/-- Outcome of the publish handler: whether the Publish RPC was attempted,
and the error the handler returned (none for success). -/
structure PublishOutcome where
  publishAttempted : Bool
  result : Option GoError
deriving DecidableEq, Repr

/-- The publish handler: connect (wrapping as `"publication failed"`),
optionally ensureStreamCreated (its error returned unchanged), resolve the
ack policy token (failure wrapped as `"publication failed"`, no Publish RPC
attempted), then the Publish call, whose error is wrapped as
`"publication failed"` — except `lift.ErrStreamExists`, which the Go code
checks for and silently drops (`err != lift.ErrStreamExists`).
`createErr` and `publishErr` are the broker results of the CreateStream and
Publish calls. -/
def publish (address : String) (dialErr : Option GoError) (createStream : Bool)
    (createErr : Option GoError) (streamName ackPolicyToken : String)
    (publishErr : Option GoError) : PublishOutcome :=
  match connectToEndpoint address dialErr with
  | some e => ⟨false, some (.wrapped "publication failed" e)⟩
  | none =>
    match (if createStream then ensureStreamCreatedResult createErr streamName else none) with
    | some e => ⟨false, some e⟩
    | none =>
      match ackPolicyStringToAckPolicy ackPolicyToken with
      | .error e => ⟨false, some (.wrapped "publication failed" e)⟩
      | .ok _ =>
        match publishErr with
        | none => ⟨true, none⟩
        | some e =>
          if e = GoError.errStreamExists then ⟨true, none⟩
          else ⟨true, some (.wrapped "publication failed" e)⟩

/-- Go conversion int32(x) on a 64-bit int: reduce modulo 2^32 into
[-2^31, 2^31). -/
def toInt32 (x : Int) : Int := (x + 2 ^ 31) % 2 ^ 32 - 2 ^ 31

/-- intToInt32Slice: builds the []int32 by appending int32(value) for each
value in order. -/
def intToInt32Slice (slice : List Int) : List Int :=
  slice.map toInt32

/-- The fetchCursor handler: connect (wrapping as `"fetching cursor failed"`),
then the FetchCursor call; on its failure the Go code wraps the error as
`"stream creation failed for stream %v: %w"` (sic), and on success prints
`"offset: %v"`.  `fetchResult` is the broker result of the FetchCursor call. -/
def fetchCursor (address : String) (dialErr : Option GoError)
    (streamName cursorID : String) (partition : Int)
    (fetchResult : Except GoError Int) : Except GoError String :=
  match connectToEndpoint address dialErr with
  | some e => .error (.wrapped "fetching cursor failed" e)
  | none =>
    match fetchResult with
    | .error e =>
      .error (.wrapped ("stream creation failed for stream " ++ streamName) e)
    | .ok offset => .ok ("offset: " ++ toString offset)

/-- One inbound delivery handed to the subscription callback
`func(m *lift.Message, err error)`: a message together with the delivery
error accompanying it (nil for a normal delivery). -/
structure Delivery (M : Type) where
  message : M
  error : Option GoError
deriving DecidableEq, Repr

/-- The streaming loop of subscribeToStream: each delivery is handed to the
callback in order; on the first delivery whose error is non-nil the callback
sends the error to errC and the loop stops (the accompanying message is not
handed to the handler, and later deliveries are not processed); otherwise
the handler runs on the message, producing one printed line.  Returns the
printed lines and the first delivery error, if any. -/
def runStreaming {M : Type} (handler : M → String) :
    List (Delivery M) → List String × Option GoError
  | [] => ([], none)
  | d :: rest =>
    match d.error with
    | some e => ([], some e)
    | none =>
      let r := runStreaming handler rest
      (handler d.message :: r.1, r.2)

/-- Outcome of a subscription session, mirroring the spec's state machine:
setup failed (connect, ensure-create or Subscribe call failed), still in the
Streaming state having printed the given lines (the Go function is blocked on
`<-errC` and never returns), or terminated by a delivery error, which
subscribeToStream returns unwrapped. -/
inductive SubscribeOutcome where
  | setupFailed : GoError → SubscribeOutcome
  | streaming : List String → SubscribeOutcome
  | terminated : List String → GoError → SubscribeOutcome
deriving DecidableEq, Repr

/-- subscribeToStream: connect (failure wrapped as
`"stream subscription failed"`), optionally ensureStreamCreated (its error
returned unchanged), the Subscribe call (failure wrapped as
`"stream subscription failed for stream %v"`), then block on errC: the
function returns only when a delivery error arrives, and returns exactly
that error.  `dialErr`, `createErr` and `subscribeErr` are the broker
results of the Connect, CreateStream and Subscribe calls; `deliveries` is
the inbound delivery sequence. -/
def subscribeToStream {M : Type} (streamName subjectName : String)
    (handler : M → String) (endPointAddress : String) (createStream : Bool)
    (dialErr createErr subscribeErr : Option GoError)
    (deliveries : List (Delivery M)) : SubscribeOutcome :=
  match connectToEndpoint endPointAddress dialErr with
  | some e => .setupFailed (.wrapped "stream subscription failed" e)
  | none =>
    match (if createStream then ensureStreamCreatedResult createErr streamName else none) with
    | some e => .setupFailed e
    | none =>
      match subscribeErr with
      | some e =>
        .setupFailed (.wrapped ("stream subscription failed for stream " ++ streamName) e)
      | none =>
        match runStreaming handler deliveries with
        | (outs, Option.none) => .streaming outs
        | (outs, some e) => .terminated outs e

/-- The activity stream operation discriminant (`liftApi.ActivityStreamOp`):
the four known kinds, or any other enum value. -/
inductive ActivityStreamOp where
  | createStreamOp : ActivityStreamOp
  | deleteStreamOp : ActivityStreamOp
  | pauseStreamOp : ActivityStreamOp
  | resumeStreamOp : ActivityStreamOp
  | unknownOp : Nat → ActivityStreamOp
deriving DecidableEq, Repr

/-- Fields of `liftApi.CreateStreamOp` used by the renderer. -/
structure CreateStreamOp where
  stream : String
  partitions : List Int
deriving DecidableEq, Repr

/-- Fields of `liftApi.DeleteStreamOp` used by the renderer. -/
structure DeleteStreamOp where
  stream : String
deriving DecidableEq, Repr

/-- Fields of `liftApi.PauseStreamOp` used by the renderer. -/
structure PauseStreamOp where
  stream : String
  partitions : List Int
  resumeAll : Bool
deriving DecidableEq, Repr

/-- Fields of `liftApi.ResumeStreamOp` used by the renderer. -/
structure ResumeStreamOp where
  stream : String
  partitions : List Int
deriving DecidableEq, Repr

/-- A decoded `liftApi.ActivityStreamEvent`: the discriminant plus the
per-operation field groups read by the switch in subscribeActivityStream. -/
structure ActivityStreamEvent where
  op : ActivityStreamOp
  createStream : CreateStreamOp
  deleteStream : DeleteStreamOp
  pauseStream : PauseStreamOp
  resumeStream : ResumeStreamOp
deriving DecidableEq, Repr

/-- Go `fmt` rendering of a bool with %v. -/
def goBool (b : Bool) : String := if b then "true" else "false"

/-- Go `fmt` rendering of an int32 slice with %v: space-separated values in
brackets. -/
def goIntList (xs : List Int) : String :=
  "[" ++ String.intercalate " " (xs.map toString) ++ "]"

/-- Go `fmt` %v rendering of the ActivityStreamOp enum: the protobuf enum
name for known values, the numeral for unknown ones. -/
def opString : ActivityStreamOp → String
  | .createStreamOp => "CREATE_STREAM"
  | .deleteStreamOp => "DELETE_STREAM"
  | .pauseStreamOp => "PAUSE_STREAM"
  | .resumeStreamOp => "RESUME_STREAM"
  | .unknownOp n => toString n

/-- The `activityStr` computed by the switch in subscribeActivityStream: per
known discriminant a summary built from the stream name and, where
applicable, the partition list and resume-all flag; the default case is
exactly "unknown activity". -/
def renderActivity (se : ActivityStreamEvent) : String :=
  match se.op with
  | .createStreamOp =>
    "stream: " ++ se.createStream.stream ++ ", partitions: " ++
      goIntList se.createStream.partitions
  | .deleteStreamOp => "stream: " ++ se.deleteStream.stream
  | .pauseStreamOp =>
    "stream: " ++ se.pauseStream.stream ++ ", partitions: " ++
      goIntList se.pauseStream.partitions ++ ", resumeAll: " ++
      goBool se.pauseStream.resumeAll
  | .resumeStreamOp =>
    "stream: " ++ se.resumeStream.stream ++ ", partitions: " ++
      goIntList se.resumeStream.partitions
  | .unknownOp _ => "unknown activity"

/-- An activity stream message payload at the decoder boundary: the external
`liftApi.ActivityStreamEvent.Unmarshal` either decodes it into an event or
fails with an error string.  The decoder itself is external library code;
it is embedded at its interface. -/
inductive Payload where
  | valid : ActivityStreamEvent → Payload
  | malformed : String → Payload
deriving DecidableEq, Repr

/-- Unmarshal at the decoder boundary: valid payloads decode to their event,
malformed ones fail with their error string. -/
def unmarshalActivity : Payload → Except String ActivityStreamEvent
  | .valid se => .ok se
  | .malformed errStr => .error errStr

/-- A message received from the activity stream: its payload bytes and its
offset. -/
structure ActivityMessage where
  payload : Payload
  offset : Int
deriving DecidableEq, Repr

/-- The message handler closure of subscribeActivityStream: on Unmarshal
failure it prints the received-but-invalid line and returns (the session
continues); otherwise it prints the op, the rendered activity summary and
the offset. -/
def activityHandler (m : ActivityMessage) : String :=
  match unmarshalActivity m.payload with
  | .error errStr =>
    "Received an invalid activity message from the activity stream: " ++ errStr
  | .ok se =>
    "Received activity stream message: op: " ++ opString se.op ++ ", " ++
      renderActivity se ++ ", offset: " ++ toString m.offset

/-- subscribeActivityStream: subscribeToStream on the "__activity" stream
with an empty subject, createStream false, and the activity handler. -/
def subscribeActivityStream (address : String)
    (dialErr subscribeErr : Option GoError)
    (deliveries : List (Delivery ActivityMessage)) : SubscribeOutcome :=
  subscribeToStream "__activity" "" activityHandler address false
    dialErr Option.none subscribeErr deliveries

/-- String containment: t occurs contiguously inside s. -/
def containsSub (s t : String) : Prop := ∃ a b, s = a ++ t ++ b

/-- Sample activity message with a malformed payload. -/
def sampleBadMessage : ActivityMessage := ⟨.malformed "bad", 0⟩

/-- Sample decoded delete-stream event. -/
def sampleGoodEvent : ActivityStreamEvent :=
  ⟨.deleteStreamOp, ⟨"s", []⟩, ⟨"s"⟩, ⟨"s", [], false⟩, ⟨"s", []⟩⟩

/-- Sample activity message with a well-formed payload. -/
def sampleGoodMessage : ActivityMessage := ⟨.valid sampleGoodEvent, 1⟩

/-- Sample delivery sequence: a malformed payload followed by a valid one,
neither accompanied by a delivery error. -/
def sampleDeliveries : List (Delivery ActivityMessage) :=
  [⟨sampleBadMessage, none⟩, ⟨sampleGoodMessage, none⟩]

/-- Sample decoded pause-stream event. -/
def samplePauseEvent : ActivityStreamEvent :=
  ⟨.pauseStreamOp, ⟨"", []⟩, ⟨""⟩, ⟨"foo", [0, 2], true⟩, ⟨"", []⟩⟩

/-- Sample event with an unknown discriminant. -/
def sampleUnknownEvent : ActivityStreamEvent :=
  ⟨.unknownOp 7, ⟨"", []⟩, ⟨""⟩, ⟨"", [], false⟩, ⟨"", []⟩⟩

/-! Helper lemmas shared by the claim theorems. -/

lemma ensureStreamCreatedCall_snd (sn sub : String) :
    (ensureStreamCreatedCall sn sub).2 = sn := by
  unfold ensureStreamCreatedCall
  split <;> rfl

lemma createCall_snd (sn sub : String) : (createCall sn sub).2 = sn := by
  unfold createCall
  split <;> rfl

lemma mem_streams_ensureStreamCreated (b : Broker) (sn sub : String) :
    sn ∈ (ensureStreamCreated b sn sub).2.streams := by
  simp only [ensureStreamCreated, Broker.createStream, ensureStreamCreatedCall_snd]
  by_cases h : sn ∈ b.streams <;> simp [h]

lemma string_length_zero_iff (s : String) : s.length = 0 ↔ s = "" := by
  rw [String.ext_iff]
  cases s with
  | mk data => cases data <;> simp [String.length]

lemma toInt32_eq_self {x : Int} (h1 : -(2 ^ 31) ≤ x) (h2 : x < 2 ^ 31) :
    toInt32 x = x := by
  unfold toInt32
  have hlo : (0 : Int) ≤ x + 2 ^ 31 := by omega
  have hhi : x + 2 ^ 31 < 2 ^ 32 := by omega
  rw [Int.emod_eq_of_lt hlo hhi]
  omega

lemma runStreaming_all_ok {M : Type} (handler : M → String)
    (ds : List (Delivery M)) (h : ∀ d ∈ ds, d.error = none) :
    runStreaming handler ds = (ds.map fun d => handler d.message, none) := by
  induction ds with
  | nil => rfl
  | cons d rest ih =>
    have hd : d.error = none := h d (by simp)
    have hr := ih (fun x hx => h x (by simp [hx]))
    simp [runStreaming, hd, hr]

lemma runStreaming_first_error {M : Type} (handler : M → String)
    (ds1 ds2 : List (Delivery M)) (d : Delivery M) (e : GoError)
    (h1 : ∀ x ∈ ds1, x.error = none) (h2 : d.error = some e) :
    runStreaming handler (ds1 ++ d :: ds2) =
      (ds1.map fun x => handler x.message, some e) := by
  induction ds1 with
  | nil => simp [runStreaming, h2]
  | cons x rest ih =>
    have hx : x.error = none := h1 x (by simp)
    have hr := ih (fun y hy => h1 y (by simp [hy]))
    simp [runStreaming, hx, hr]

/-- C1: ensureStreamCreated treats the broker's "stream already exists"
report as success, wraps every other create-stream failure as a
stream-creation failure naming the stream, and consequently a second call
with the identical (streamName, subjectName) pair never fails. -/
theorem ensureStreamCreated_idempotent :
    (∀ sn : String, ensureStreamCreatedResult (some .errStreamExists) sn = none) ∧
    (∀ (sn : String) (e : GoError), e ≠ GoError.errStreamExists →
      ensureStreamCreatedResult (some e) sn =
        some (.wrapped ("stream creation failed for stream " ++ sn) e)) ∧
    (∀ (b : Broker) (sn sub : String),
      (ensureStreamCreated (ensureStreamCreated b sn sub).2 sn sub).1 = none) := by
  refine ⟨fun sn => rfl, fun sn e he => by simp [ensureStreamCreatedResult, he],
    fun b sn sub => ?_⟩
  simp only [ensureStreamCreated, Broker.createStream, ensureStreamCreatedCall_snd]
  by_cases h : sn ∈ b.streams <;> simp [h, ensureStreamCreatedResult]

/-- Witness for C1 at concrete inputs. -/
theorem ensureStreamCreated_idempotent_witness :
    ensureStreamCreatedResult (some (.broker "boom")) "s" =
      some (.wrapped ("stream creation failed for stream " ++ "s") (.broker "boom")) ∧
    (ensureStreamCreated (ensureStreamCreated ⟨[]⟩ "s" "").2 "s" "").1 = none :=
  ⟨ensureStreamCreated_idempotent.2.1 "s" (.broker "boom") (by decide),
   ensureStreamCreated_idempotent.2.2 ⟨[]⟩ "s" ""⟩

/-- C2 counterexample: running create twice with the same arguments against
a broker that starts without the stream fails on the second run — the create
handler wraps the broker's stream-already-exists error instead of treating
it as success. -/
theorem create_second_run_fails_cex :
    (create "a" none (create "a" none ⟨[]⟩ "foo" "").2 "foo" "").1 =
      some (.wrapped ("stream creation failed for stream " ++ "foo")
        .errStreamExists) := by decide

/-- C2 amended: the first create for a stream the broker does not have
succeeds, and the second run with the identical arguments reports a
stream-creation failure wrapping the stream-already-exists error — the
create handler, unlike ensureStreamCreated, does not suppress it. -/
theorem create_not_idempotent (b : Broker) (sn sub addr : String)
    (h : sn ∉ b.streams) :
    (create addr none b sn sub).1 = none ∧
    (create addr none (create addr none b sn sub).2 sn sub).1 =
      some (.wrapped ("stream creation failed for stream " ++ sn)
        .errStreamExists) := by
  simp only [create, connectToEndpoint, Broker.createStream, createCall_snd]
  simp [h]

/-- Witness for C2's amended theorem at concrete inputs. -/
theorem create_not_idempotent_witness :
    (create "a" none ⟨[]⟩ "foo" "").1 = none ∧
    (create "a" none (create "a" none ⟨[]⟩ "foo" "").2 "foo" "").1 =
      some (.wrapped ("stream creation failed for stream " ++ "foo")
        .errStreamExists) :=
  create_not_idempotent ⟨[]⟩ "foo" "" "a" (by decide)

/-- C3: the ack-policy resolver succeeds exactly on the tokens "leader",
"all", "none"; every other token fails with the invalid-ack-policy error,
and in that case the publish handler returns the error wrapped as a
publication failure without attempting the Publish RPC. -/
theorem ackPolicy_resolution (t : String) :
    ((∃ p, ackPolicyStringToAckPolicy t = .ok p) ↔
      (t = "leader" ∨ t = "all" ∨ t = "none")) ∧
    (t ≠ "leader" → t ≠ "all" → t ≠ "none" →
      ackPolicyStringToAckPolicy t = .error (.invalidAckPolicy t) ∧
      ∀ (addr : String) (cs : Bool) (ce : Option GoError) (sn : String)
        (pe : Option GoError),
        (if cs then ensureStreamCreatedResult ce sn else none) = none →
        publish addr none cs ce sn t pe =
          ⟨false, some (.wrapped "publication failed" (.invalidAckPolicy t))⟩) := by
  by_cases h1 : t = "leader"
  · simp [ackPolicyStringToAckPolicy, h1]
  · by_cases h2 : t = "all"
    · simp [ackPolicyStringToAckPolicy, h1, h2]
    · by_cases h3 : t = "none"
      · simp [ackPolicyStringToAckPolicy, h1, h2, h3]
      · refine ⟨by simp [ackPolicyStringToAckPolicy, h1, h2, h3], fun _ _ _ => ?_⟩
        refine ⟨by simp [ackPolicyStringToAckPolicy, h1, h2, h3],
          fun addr cs ce sn pe hens => ?_⟩
        simp [publish, connectToEndpoint, hens, ackPolicyStringToAckPolicy, h1, h2, h3]

/-- Witness for C3 at the concrete token "Leader" (case-sensitive). -/
theorem ackPolicy_resolution_witness :
    ackPolicyStringToAckPolicy "Leader" = .error (.invalidAckPolicy "Leader") ∧
    publish "a" none false none "s" "Leader" none =
      ⟨false, some (.wrapped "publication failed" (.invalidAckPolicy "Leader"))⟩ := by
  have h := (ackPolicy_resolution "Leader").2 (by decide) (by decide) (by decide)
  exact ⟨h.1, h.2 "a" false none "s" none rfl⟩

/-- C4: with a successful setup, a delivery sequence free of delivery errors
leaves the activity subscription session in the Streaming state with every
message — malformed payloads included — handled in order; a malformed
payload is logged as a received-but-invalid message rather than terminating
the session. -/
theorem subscribeActivityStream_malformed_nonfatal (addr : String)
    (ds : List (Delivery ActivityMessage)) (h : ∀ d ∈ ds, d.error = none) :
    subscribeActivityStream addr none none ds =
      .streaming (ds.map fun d => activityHandler d.message) ∧
    ∀ (m : ActivityMessage) (errStr : String), m.payload = .malformed errStr →
      activityHandler m =
        "Received an invalid activity message from the activity stream: " ++ errStr := by
  constructor
  · simp [subscribeActivityStream, subscribeToStream, connectToEndpoint,
      runStreaming_all_ok activityHandler ds h]
  · intro m errStr hm
    simp [activityHandler, unmarshalActivity, hm]

/-- Witness for C4: a malformed payload followed by a valid one, the session
remaining in Streaming with both messages handled. -/
theorem subscribeActivityStream_malformed_nonfatal_witness :
    subscribeActivityStream "a" none none sampleDeliveries =
      .streaming (sampleDeliveries.map fun d => activityHandler d.message) ∧
    activityHandler sampleBadMessage =
      "Received an invalid activity message from the activity stream: " ++ "bad" := by
  have h := subscribeActivityStream_malformed_nonfatal "a" sampleDeliveries (by decide)
  exact ⟨h.1, h.2 sampleBadMessage "bad" rfl⟩

/-- C5: for each of the four known discriminants the rendered summary
contains the event's stream name and, where applicable, its partition list
and resume-all flag; every other discriminant renders exactly as
"unknown activity". -/
theorem renderActivity_known_ops (se : ActivityStreamEvent) :
    (se.op = .createStreamOp →
      containsSub (renderActivity se) se.createStream.stream ∧
      containsSub (renderActivity se) (goIntList se.createStream.partitions)) ∧
    (se.op = .deleteStreamOp →
      containsSub (renderActivity se) se.deleteStream.stream) ∧
    (se.op = .pauseStreamOp →
      containsSub (renderActivity se) se.pauseStream.stream ∧
      containsSub (renderActivity se) (goIntList se.pauseStream.partitions) ∧
      containsSub (renderActivity se) (goBool se.pauseStream.resumeAll)) ∧
    (se.op = .resumeStreamOp →
      containsSub (renderActivity se) se.resumeStream.stream ∧
      containsSub (renderActivity se) (goIntList se.resumeStream.partitions)) ∧
    (∀ n : Nat, se.op = .unknownOp n → renderActivity se = "unknown activity") := by
  refine ⟨fun hop => ?_, fun hop => ?_, fun hop => ?_, fun hop => ?_,
    fun n hop => ?_⟩ <;> simp only [renderActivity, hop]
  · exact ⟨⟨"stream: ", ", partitions: " ++ goIntList se.createStream.partitions,
      by simp [String.append_assoc]⟩,
      ⟨"stream: " ++ se.createStream.stream ++ ", partitions: ", "",
      by simp [String.append_assoc]⟩⟩
  · exact ⟨"stream: ", "", by simp [String.append_assoc]⟩
  · exact ⟨⟨"stream: ", ", partitions: " ++ goIntList se.pauseStream.partitions ++
      ", resumeAll: " ++ goBool se.pauseStream.resumeAll,
      by simp [String.append_assoc]⟩,
      ⟨"stream: " ++ se.pauseStream.stream ++ ", partitions: ",
      ", resumeAll: " ++ goBool se.pauseStream.resumeAll,
      by simp [String.append_assoc]⟩,
      ⟨"stream: " ++ se.pauseStream.stream ++ ", partitions: " ++
        goIntList se.pauseStream.partitions ++ ", resumeAll: ", "",
      by simp [String.append_assoc]⟩⟩
  · exact ⟨⟨"stream: ", ", partitions: " ++ goIntList se.resumeStream.partitions,
      by simp [String.append_assoc]⟩,
      ⟨"stream: " ++ se.resumeStream.stream ++ ", partitions: ", "",
      by simp [String.append_assoc]⟩⟩

/-- Witness for C5 at a concrete pause event and a concrete unknown event. -/
theorem renderActivity_known_ops_witness :
    containsSub (renderActivity samplePauseEvent) "foo" ∧
    containsSub (renderActivity samplePauseEvent) (goIntList [0, 2]) ∧
    containsSub (renderActivity samplePauseEvent) (goBool true) ∧
    renderActivity sampleUnknownEvent = "unknown activity" := by
  have h := (renderActivity_known_ops samplePauseEvent).2.2.1 rfl
  have hu := (renderActivity_known_ops sampleUnknownEvent).2.2.2.2 7 rfl
  exact ⟨h.1, h.2.1, h.2.2, hu⟩

/-- C6 counterexample: the conversion is not the identity in value — the
input 2^31 (which a 64-bit Go int holds) is narrowed to -2^31. -/
theorem intToInt32Slice_not_value_identity :
    intToInt32Slice [2147483648] = [-2147483648] ∧
    ((2147483648 : Int) = -2147483648 → False) := by
  constructor
  · show [toInt32 2147483648] = [-2147483648]
    unfold toInt32
    norm_num
  · intro h
    exact absurd h (by norm_num)

/-- C6 amended: intToInt32Slice is total and order-preserving, preserves
length, maps empty input to empty output, and each output element is the
input element reduced modulo 2^32 into the int32 range — equal in value to
the input exactly when the input fits in int32. -/
theorem intToInt32Slice_spec (xs : List Int) :
    (intToInt32Slice xs).length = xs.length ∧
    (xs = [] → intToInt32Slice xs = []) ∧
    (∀ i : Nat, (intToInt32Slice xs).getD i 0 = toInt32 (xs.getD i 0)) ∧
    (∀ i : Nat, -(2 ^ 31) ≤ xs.getD i 0 → xs.getD i 0 < 2 ^ 31 →
      (intToInt32Slice xs).getD i 0 = xs.getD i 0) := by
  have hget : ∀ (ys : List Int) (i : Nat),
      (intToInt32Slice ys).getD i 0 = toInt32 (ys.getD i 0) := by
    intro ys
    induction ys with
    | nil =>
      intro i
      show (0 : Int) = toInt32 0
      unfold toInt32
      norm_num
    | cons y rest ih =>
      intro i
      cases i with
      | zero => rfl
      | succ j => exact ih j
  refine ⟨by simp [intToInt32Slice], fun h => by simp [h, intToInt32Slice],
    hget xs, fun i h1 h2 => ?_⟩
  rw [hget xs i]
  exact toInt32_eq_self h1 h2

/-- Witness for C6's amended theorem at a concrete list. -/
theorem intToInt32Slice_spec_witness :
    (intToInt32Slice [5, -3]).length = ([5, -3] : List Int).length ∧
    (intToInt32Slice [5, -3]).getD 0 0 = toInt32 (([5, -3] : List Int).getD 0 0) ∧
    (intToInt32Slice [5, -3]).getD 1 0 = ([5, -3] : List Int).getD 1 0 := by
  have h := intToInt32Slice_spec [5, -3]
  exact ⟨h.1, h.2.2.1 0, h.2.2.2 1 (by norm_num) (by norm_num)⟩

/-- C7 failing input: when the Publish broker call returns the
stream-already-exists error, the publish handler silently suppresses it and
reports success rather than wrapping it as a publication failure — the Go
code guards the Publish error with `err != lift.ErrStreamExists`. -/
theorem publish_suppresses_errStreamExists :
    publish "a" none false none "s" "leader" (some .errStreamExists) =
      ⟨true, none⟩ := rfl

/-- C8 failing input: when the FetchCursor broker call fails, fetchCursor
wraps the error with the prefix "stream creation failed for stream %v",
another command's prefix, instead of a cursor-operation one. -/
theorem fetchCursor_mislabeled_error :
    fetchCursor "a" none "s" "c" 0 (.error (.broker "boom")) =
      .error (.wrapped ("stream creation failed for stream " ++ "s")
        (.broker "boom")) := rfl

/-- C9: in both ensureStreamCreated and the create handler, an empty subject
name defaults the broker CreateStream call's subject to the stream name, and
a non-empty subject name is passed through as given. -/
theorem createStream_subject_defaulting (sn sub : String) :
    (sub = "" →
      ensureStreamCreatedCall sn sub = (sn, sn) ∧ createCall sn sub = (sn, sn)) ∧
    (sub ≠ "" →
      ensureStreamCreatedCall sn sub = (sub, sn) ∧ createCall sn sub = (sub, sn)) := by
  constructor
  · intro h
    simp [ensureStreamCreatedCall, createCall, h]
  · intro h
    have hlen : sub.length ≠ 0 := by
      simpa [string_length_zero_iff] using h
    simp [ensureStreamCreatedCall, createCall, hlen]

/-- Witness for C9 at concrete subjects. -/
theorem createStream_subject_defaulting_witness :
    ensureStreamCreatedCall "s" "" = ("s", "s") ∧ createCall "s" "" = ("s", "s") ∧
    ensureStreamCreatedCall "s" "u" = ("u", "s") ∧ createCall "s" "u" = ("u", "s") := by
  have h1 := (createStream_subject_defaulting "s" "").1 rfl
  have h2 := (createStream_subject_defaulting "s" "u").2 (by decide)
  exact ⟨h1.1, h1.2, h2.1, h2.2⟩

/-- C10: once the Subscribe call has succeeded, subscribeToStream stays in
the Streaming state (does not return) while deliveries carry no error, and
on the first delivery error it terminates returning exactly that error,
unwrapped; the message accompanying the erroring delivery is never handed to
the handler, and no success return is reachable from that path. -/
theorem subscribeToStream_first_error {M : Type} (handler : M → String)
    (sn sub addr : String) (cs : Bool) (ce : Option GoError)
    (hsetup : (if cs then ensureStreamCreatedResult ce sn else none) = none) :
    (∀ ds : List (Delivery M), (∀ d ∈ ds, d.error = none) →
      subscribeToStream sn sub handler addr cs none ce none ds =
        .streaming (ds.map fun d => handler d.message)) ∧
    (∀ (ds1 ds2 : List (Delivery M)) (d : Delivery M) (e : GoError),
      (∀ x ∈ ds1, x.error = none) → d.error = some e →
      subscribeToStream sn sub handler addr cs none ce none (ds1 ++ d :: ds2) =
        .terminated (ds1.map fun x => handler x.message) e) := by
  constructor
  · intro ds h
    simp [subscribeToStream, connectToEndpoint, hsetup,
      runStreaming_all_ok handler ds h]
  · intro ds1 ds2 d e h1 h2
    simp [subscribeToStream, connectToEndpoint, hsetup,
      runStreaming_first_error handler ds1 ds2 d e h1 h2]

/-- Witness for C10 at a concrete delivery sequence over Nat messages. -/
theorem subscribeToStream_first_error_witness :
    subscribeToStream "s" "" toString "a" false none none none
        ([⟨1, none⟩] ++ (⟨2, some (.broker "boom")⟩ : Delivery Nat) :: [⟨3, none⟩]) =
      .terminated (([⟨1, none⟩] : List (Delivery Nat)).map fun x => toString x.message)
        (.broker "boom") :=
  (subscribeToStream_first_error toString "s" "" "a" false none rfl).2
    [⟨1, none⟩] [⟨3, none⟩] ⟨2, some (.broker "boom")⟩ (.broker "boom")
    (by decide) rfl

end LiftbridgeCli
